import Mathlib

/-!
Shallow embedding of the kick-api TypeScript client library
(`src/client.ts`, `src/errors.ts`, `src/modules/*.ts`) and proofs about its
credential manager, request dispatcher and per-resource validation.

Modelling conventions:
* JavaScript numbers that hold timestamps, statuses and lifetimes are
  embedded as `Int` (all the code does with them is compare, add and
  multiply, far below 2^53, so no overflow semantics are involved).
* Optional JavaScript fields are `Option`; JavaScript truthiness of a
  string or number field is made explicit by `strTruthy` / `intTruthy`
  (`undefined`, `""` and `0` are falsy).
* A best-effort-parsed response body (JSON, else raw text, else a
  placeholder) is carried as an opaque `Option String` value: the code
  never inspects it, it only stores it on the raised error.
* `fetch` and its response are replaced by an explicit outcome argument
  (`FetchOutcome` / `TokenFetchOutcome`): success carries the parsed JSON
  of the reply, an HTTP error carries status/statusText/body/headers, and
  a thrown exception carries the foreign error object.
* `parseInt` is embedded by `jsParseInt`, with `NaN` modelled as `none`
  (the code only ever stores the parsed value) and without the hexadecimal
  auto-radix, which cannot occur on a retry-after header.
-/

namespace KickApi

/-- JavaScript truthiness of an optional string field: `undefined` and the
empty string are falsy, every other string is truthy. -/
def strTruthy : Option String → Bool
  | some s => !s.isEmpty
  | none => false

/-- JavaScript truthiness of an optional integer field: `undefined` and `0`
are falsy. -/
def intTruthy : Option Int → Bool
  | some n => n != 0
  | none => false

/-- Longest run of leading decimal digits. -/
def takeDigits : List Char → List Char
  | [] => []
  | c :: rest => if c.isDigit then c :: takeDigits rest else []

/-- Numeric value of a list of decimal digits. -/
def digitsToNat (cs : List Char) : Nat :=
  cs.foldl (fun a c => a * 10 + (c.toNat - 48)) 0

/-- JavaScript `parseInt` on a decimal string: skip leading whitespace, read
an optional sign and then the longest run of decimal digits (anything
after them, trailing whitespace included, is ignored); `none` models
`NaN` (no digit found). -/
def jsParseInt (s : String) : Option Int :=
  let core : Int → List Char → Option Int := fun sign rest =>
    let ds := takeDigits rest
    if ds.isEmpty then none else some (sign * (digitsToNat ds : Int))
  match s.toList.dropWhile Char.isWhitespace with
  | '-' :: rest => core (-1) rest
  | '+' :: rest => core 1 rest
  | rest => core 1 rest

/-- JavaScript `String.prototype.startsWith`, embedded on the character
lists of the two strings. -/
def jsStartsWith (s pre : String) : Bool :=
  List.isPrefixOf pre.toList s.toList

/-- First value stored under key `k` in a header map
(`Object.fromEntries(response.headers.entries())` keeps one value per key;
we embed the map as an association list). -/
def headerLookup (hs : List (String × String)) (k : String) : Option String :=
  match hs.find? (fun p => p.1 == k) with
  | some p => some p.2
  | none => none

/-- The `name` field of the error classes of `src/errors.ts` that extend
`KickApiError`. -/
inductive KickErrorName where
  | apiError
  | oauthError
  | badRequest
  | unauthorized
  | forbidden
  | notFound
  | rateLimit
  | serverError
deriving DecidableEq, Repr

/-- The observable fields of a `KickApiError` instance (`src/errors.ts`):
the subclass tag, the message, and the properties set by the base-class
constructor, plus `retryAfter`, which only `KickRateLimitError` declares
(`none` on every other subclass). -/
structure KickApiError where
  name : KickErrorName
  message : String
  status : Int
  responseBody : Option String
  headers : Option (List (String × String))
  endpoint : Option String
  retryAfter : Option Int
deriving DecidableEq, Repr

/-- `new KickApiError(message, status, responseBody, headers, endpoint)`. -/
def mkKickApiError (message : String) (status : Int) (responseBody : Option String)
    (headers : Option (List (String × String))) (endpoint : Option String) : KickApiError :=
  { name := .apiError, message := message, status := status, responseBody := responseBody
    headers := headers, endpoint := endpoint, retryAfter := none }

/-- `new KickOAuthError(message, status, responseBody)`: forwards to the base
constructor with no headers and no endpoint. -/
def KickOAuthError (message : String) (status : Int) (responseBody : Option String) : KickApiError :=
  { name := .oauthError, message := "OAuth Error: " ++ message, status := status
    responseBody := responseBody, headers := none, endpoint := none, retryAfter := none }

/-- `new KickBadRequestError(message, responseBody, endpoint)`: status 400,
headers `undefined`. -/
def KickBadRequestError (message : String) (responseBody : Option String)
    (endpoint : Option String) : KickApiError :=
  { name := .badRequest, message := "Bad Request: " ++ message, status := 400
    responseBody := responseBody, headers := none, endpoint := endpoint, retryAfter := none }

/-- `new KickUnauthorizedError(message, responseBody, endpoint)`: status 401,
headers `undefined`. -/
def KickUnauthorizedError (message : String) (responseBody : Option String)
    (endpoint : Option String) : KickApiError :=
  { name := .unauthorized, message := "Unauthorized: " ++ message, status := 401
    responseBody := responseBody, headers := none, endpoint := endpoint, retryAfter := none }

/-- `new KickForbiddenError(message, responseBody, endpoint)`: status 403,
headers `undefined`. -/
def KickForbiddenError (message : String) (responseBody : Option String)
    (endpoint : Option String) : KickApiError :=
  { name := .forbidden, message := "Forbidden: " ++ message, status := 403
    responseBody := responseBody, headers := none, endpoint := endpoint, retryAfter := none }

/-- `new KickNotFoundError(message, responseBody, endpoint)`: status 404,
headers `undefined`. -/
def KickNotFoundError (message : String) (responseBody : Option String)
    (endpoint : Option String) : KickApiError :=
  { name := .notFound, message := "Not Found: " ++ message, status := 404
    responseBody := responseBody, headers := none, endpoint := endpoint, retryAfter := none }

/-- `new KickRateLimitError(message, responseBody, retryAfter, endpoint)`:
status 429, headers `undefined`, `retryAfter` stored on the instance. -/
def KickRateLimitError (message : String) (responseBody : Option String)
    (retryAfter : Option Int) (endpoint : Option String) : KickApiError :=
  { name := .rateLimit, message := "Rate Limited: " ++ message, status := 429
    responseBody := responseBody, headers := none, endpoint := endpoint, retryAfter := retryAfter }

/-- `new KickServerError(message, status, responseBody, endpoint)`: keeps the
given status, headers `undefined`. -/
def KickServerError (message : String) (status : Int) (responseBody : Option String)
    (endpoint : Option String) : KickApiError :=
  { name := .serverError, message := "Server Error: " ++ message, status := status
    responseBody := responseBody, headers := none, endpoint := endpoint, retryAfter := none }

/-- `createKickError(status, statusText, responseBody, headers, endpoint)`
from `src/errors.ts`: the status-to-subclass switch. Only the `default`
branch forwards the headers to the constructed error; the 429 branch reads
`headers["retry-after"]`, keeps `undefined` when that value is falsy and
otherwise stores `parseInt` of it. -/
def createKickError (status : Int) (statusText : String) (responseBody : Option String)
    (headers : Option (List (String × String))) (endpoint : Option String) : KickApiError :=
  let message := toString status ++ " " ++ statusText
  if status == 400 then KickBadRequestError message responseBody endpoint
  else if status == 401 then KickUnauthorizedError message responseBody endpoint
  else if status == 403 then KickForbiddenError message responseBody endpoint
  else if status == 404 then KickNotFoundError message responseBody endpoint
  else if status == 429 then
    let retryAfter : Option Int :=
      match headers with
      | some hs =>
        match headerLookup hs "retry-after" with
        | some v => if v.isEmpty then none else jsParseInt v
        | none => none
      | none => none
    KickRateLimitError message responseBody retryAfter endpoint
  else if status == 500 || status == 502 || status == 503 || status == 504 then
    KickServerError message status responseBody endpoint
  else
    mkKickApiError message status responseBody headers endpoint

/-- A foreign (non-library) JavaScript error object, identified by the name
of its constructor (what `error.constructor.name` evaluates to) and its
message. -/
structure JsError where
  constructorName : String
  message : String
deriving DecidableEq, Repr

/-- What a failed library call surfaces to the caller: a typed
`KickApiError`, a `KickNetworkError` (message plus the original cause,
kept unchanged), or a foreign error rethrown as-is because its constructor
name starts with "Kick" (the dynamic dispatch of `request`'s catch block). -/
inductive RequestError where
  | kick (e : KickApiError)
  | network (message : String) (originalError : JsError)
  | foreignRethrown (e : JsError)
deriving DecidableEq, Repr

/-- Outcome of the `fetch` call inside `KickClient.request`: a success
response with parsed JSON body, a non-ok response (status, statusText,
best-effort parsed body, headers), or a thrown exception. -/
inductive FetchOutcome where
  | success (body : String)
  | httpError (status : Int) (statusText : String) (responseBody : Option String)
      (headers : List (String × String))
  | thrown (e : JsError)
deriving DecidableEq, Repr

/-- The response handling of `KickClient.request` (`src/client.ts` lines
324-365) after the access token was obtained: on a non-ok response it
throws `createKickError(...)` with the response headers and the endpoint
(that typed error is rethrown unchanged by the catch block, whose test
`error.constructor.name.startsWith("Kick")` it satisfies); any other
exception whose constructor name starts with "Kick" is rethrown as-is, and
everything else is wrapped in a `KickNetworkError` that preserves the
original cause. -/
def handleResponse (endpoint : String) (outcome : FetchOutcome) : Except RequestError String :=
  match outcome with
  | .success body => .ok body
  | .httpError status statusText responseBody headers =>
    .error (.kick (createKickError status statusText responseBody (some headers) (some endpoint)))
  | .thrown e =>
    if jsStartsWith e.constructorName "Kick" then .error (.foreignRethrown e)
    else .error (.network ("Request to " ++ endpoint ++ " failed") e)

/-- `KickClient.request`: obtain an access token (its failure propagates —
every library error has a constructor name starting with "Kick", so the
catch block rethrows it unchanged), then dispatch and classify the
response. -/
def request (endpoint : String) (tokenResult : Except RequestError String)
    (outcome : FetchOutcome) : Except RequestError String :=
  match tokenResult with
  | .error e => .error e
  | .ok _ => handleResponse endpoint outcome

/-- The client configuration (`KickClientConfig` in `src/types.ts`), after
the constructor filled in the default `baseUrl`/`oauthUrl`. -/
structure KickClientConfig where
  clientId : String
  clientSecret : String
  redirectUri : Option String
  baseUrl : String
  oauthUrl : String
  debug : Bool
deriving DecidableEq, Repr

/-- The normalized token record (`OAuthToken` in `src/types.ts`). -/
structure OAuthToken where
  accessToken : String
  tokenType : String
  expiresIn : Int
  refreshToken : Option String
  scope : Option String
  expiresAt : Int
deriving DecidableEq, Repr

/-- The JSON reply of a successful `POST {oauthUrl}/oauth/token`. -/
structure TokenResponseData where
  access_token : String
  token_type : String
  expires_in : Int
  refresh_token : Option String
  scope : Option String
deriving DecidableEq, Repr

/-- Outcome of the `fetch` against the token endpoint. -/
inductive TokenFetchOutcome where
  | success (data : TokenResponseData)
  | httpError (status : Int) (statusText : String) (responseBody : Option String)
  | thrown (e : JsError)
deriving DecidableEq, Repr

/-- `KickClient.isTokenValid` extended over the token slot: `false` when no
token is cached, otherwise `Date.now() < this.token.expiresAt - 60000`
(times in milliseconds). -/
def isTokenValid (now : Int) (token : Option OAuthToken) : Bool :=
  match token with
  | none => false
  | some t => now < t.expiresAt - 60000

/-- The token record built and stored after a successful token-endpoint
reply, with `refreshToken` taken from the given expression (the two
acquisition strategies differ only there) and
`expiresAt = Date.now() + data.expires_in * 1000`. -/
def tokenOfResponse (now : Int) (data : TokenResponseData)
    (refreshToken : Option String) : OAuthToken :=
  { accessToken := data.access_token
    tokenType := data.token_type
    expiresIn := data.expires_in
    refreshToken := refreshToken
    scope := data.scope
    expiresAt := now + data.expires_in * 1000 }

/-- `KickClient.refreshAccessToken` (`src/client.ts` lines 254-317) as a
state-passing function: result and the token slot after the call. Throws
`KickOAuthError("No refresh token available", 401)` when the cached
refresh value is falsy; on a non-ok reply throws a `KickOAuthError` with
the reply's status and body; on a thrown exception wraps it as a
`KickNetworkError`; on success replaces the token, keeping the previous
refresh value when `data.refresh_token` is falsy
(`data.refresh_token || this.token.refreshToken`). -/
def refreshAccessToken (now : Int) (token : Option OAuthToken)
    (net : TokenFetchOutcome) : Except RequestError String × Option OAuthToken :=
  match token with
  | none => (.error (.kick (KickOAuthError "No refresh token available" 401 none)), none)
  | some t =>
    match t.refreshToken with
    | none => (.error (.kick (KickOAuthError "No refresh token available" 401 none)), some t)
    | some rt =>
      if rt.isEmpty then
        (.error (.kick (KickOAuthError "No refresh token available" 401 none)), some t)
      else
        match net with
        | .success data =>
          let newTok := tokenOfResponse now data
            (if strTruthy data.refresh_token then data.refresh_token else some rt)
          (.ok newTok.accessToken, some newTok)
        | .httpError status statusText responseBody =>
          (.error (.kick (KickOAuthError
            ("Token refresh failed: " ++ toString status ++ " " ++ statusText)
            status responseBody)), some t)
        | .thrown e => (.error (.network "Failed to refresh token" e), some t)

/-- `KickClient.getClientCredentialsToken` (`src/client.ts` lines 182-247):
on success stores the token built from the reply (its `refresh_token`
taken as-is) and returns the access value; a non-ok reply becomes a
`KickOAuthError`, a thrown exception a `KickNetworkError`; the token slot
is untouched on failure. -/
def getClientCredentialsToken (now : Int) (token : Option OAuthToken)
    (net : TokenFetchOutcome) : Except RequestError String × Option OAuthToken :=
  match net with
  | .success data =>
    let newTok := tokenOfResponse now data data.refresh_token
    (.ok newTok.accessToken, some newTok)
  | .httpError status statusText responseBody =>
    (.error (.kick (KickOAuthError
      ("Client credentials token request failed: " ++ toString status ++ " " ++ statusText)
      status responseBody)), token)
  | .thrown e => (.error (.network "Failed to get client credentials token" e), token)

/-- The authentication-required error `autoRefreshToken` throws in user mode
when no usable cached/refresh path exists:
`new KickOAuthError("No valid token available. ...", 401)`. -/
def authRequiredError : KickApiError :=
  KickOAuthError
    ("No valid token available. For user authentication, use exchangeCodeForToken() first."
      ++ " For server-to-server, omit redirectUri from config.")
    401 none

/-- The tail of `KickClient.autoRefreshToken` after the refresh attempt was
skipped or failed: client-credentials acquisition when no redirect target
is configured (`!this.config.redirectUri`), else the authentication-required
`KickOAuthError` with status 401. -/
def autoRefreshTail (now : Int) (cfg : KickClientConfig) (token : Option OAuthToken)
    (ccNet : TokenFetchOutcome) : Except RequestError String × Option OAuthToken :=
  if !strTruthy cfg.redirectUri then
    getClientCredentialsToken now token ccNet
  else
    (.error (.kick authRequiredError), token)

/-- `KickClient.autoRefreshToken` (`src/client.ts` lines 161-180): when the
cached token carries a truthy refresh value, try the refresh flow first
and return its result on success (a refresh failure is only logged in
debug mode and falls through); then either acquire client credentials
(no redirect target) or throw the authentication-required error.
`refreshNet`/`ccNet` are the outcomes of the up-to-two token-endpoint
calls. -/
def autoRefreshToken (now : Int) (cfg : KickClientConfig) (token : Option OAuthToken)
    (refreshNet ccNet : TokenFetchOutcome) : Except RequestError String × Option OAuthToken :=
  if strTruthy (Option.bind token OAuthToken.refreshToken) then
    match refreshAccessToken now token refreshNet with
    | (.ok v, token2) => (.ok v, token2)
    | (.error _, token2) => autoRefreshTail now cfg token2 ccNet
  else
    autoRefreshTail now cfg token ccNet

/-- One complete, uncontended `KickClient.getAccessToken` call (no other
acquisition in flight): return the cached access value when the token is
valid, else run `autoRefreshToken` (the `tokenPromise` slot is set and
cleared around it; with a single caller it is transparent). -/
def getAccessTokenRun (now : Int) (cfg : KickClientConfig) (token : Option OAuthToken)
    (refreshNet ccNet : TokenFetchOutcome) : Except RequestError String × Option OAuthToken :=
  match token with
  | some t =>
    if now < t.expiresAt - 60000 then (.ok t.accessToken, some t)
    else autoRefreshToken now cfg (some t) refreshNet ccNet
  | none => autoRefreshToken now cfg none refreshNet ccNet

/-- Per-client-instance state of the credential manager as seen by the
cooperative scheduler: the cached token, the `tokenPromise` slot (the id
of the pending acquisition promise, when one is in flight), a counter
supplying fresh promise ids, and the number of acquisition network
operations started so far. -/
structure MgrState where
  token : Option OAuthToken
  tokenPromise : Option Nat
  nextPromiseId : Nat
  acquisitionsStarted : Nat
deriving DecidableEq, Repr

/-- What one `getAccessToken` call does in its synchronous prefix (the code
from entry to the first suspension point): await the already-pending
promise, return the cached access value, or start a new acquisition and
publish its promise in `tokenPromise`. -/
inductive CallStep where
  | awaitsPending (pid : Nat)
  | returnsCached (accessToken : String)
  | startsAcquisition (pid : Nat)
deriving DecidableEq, Repr

/-- The synchronous prefix of `KickClient.getAccessToken` (`src/client.ts`
lines 143-159). JavaScript runs it atomically: there is no `await`
between the `tokenPromise` test and the `this.tokenPromise = ...`
assignment (calling the async `autoRefreshToken` returns its promise at
its first internal `await`, after which the assignment completes in the
same synchronous slice). -/
def getAccessTokenEntry (now : Int) (st : MgrState) : CallStep × MgrState :=
  match st.tokenPromise with
  | some pid => (.awaitsPending pid, st)
  | none =>
    match st.token with
    | some t =>
      if now < t.expiresAt - 60000 then (.returnsCached t.accessToken, st)
      else
        (.startsAcquisition st.nextPromiseId,
          { st with tokenPromise := some st.nextPromiseId
                    nextPromiseId := st.nextPromiseId + 1
                    acquisitionsStarted := st.acquisitionsStarted + 1 })
    | none =>
      (.startsAcquisition st.nextPromiseId,
        { st with tokenPromise := some st.nextPromiseId
                  nextPromiseId := st.nextPromiseId + 1
                  acquisitionsStarted := st.acquisitionsStarted + 1 })

/-- `n` callers invoking `getAccessToken` while no completion event is
processed in between: each caller runs its synchronous prefix in turn. -/
def runArrivals (now : Int) : Nat → MgrState → List CallStep × MgrState
  | 0, st => ([], st)
  | n + 1, st =>
    let (c, st1) := getAccessTokenEntry now st
    let (cs, st2) := runArrivals now n st1
    (c :: cs, st2)

/-- The result a caller eventually observes, given the resolution of every
promise: a caller that awaits or started promise `pid` observes that
promise's resolution; a caller served from the cache observes the cached
value. -/
def observedResult (resolve : Nat → Except RequestError String) : CallStep → Except RequestError String
  | .awaitsPending pid => resolve pid
  | .startsAcquisition pid => resolve pid
  | .returnsCached v => .ok v

/-- A chat message request object at runtime (`ChatMessageRequest` in
`src/types.ts`; the union is a plain object, so each field is optional at
the validation site). -/
structure ChatMessageRequest where
  type : Option String
  content : Option String
  broadcaster_user_id : Option Int
  reply_to_message_id : Option String
deriving DecidableEq, Repr

/-- The reply of a successful chat-message post. -/
structure ChatMessageResponse where
  is_sent : Bool
  message_id : String
deriving DecidableEq, Repr

/-- The outbound call `ChatModule.postMessage` hands to `client.request`
(JSON serialization of the params is embedded as the structured value
itself). -/
structure ChatDispatchRecord where
  endpoint : String
  method : String
  params : ChatMessageRequest
deriving DecidableEq, Repr

/-- The type check of `ChatModule.postMessage`: the JavaScript condition
`!params.type || !["user", "bot"].includes(params.type)` (for `undefined`
or `""` the `includes` test already fails, so the disjunction reduces to
membership). -/
def chatTypeInvalid : Option String → Bool
  | some s => !(s == "user" || s == "bot")
  | none => true

/-- `ChatModule.postMessage` up to the dispatch (`src/modules/chat.ts`):
the four local validations in source order, then the POST to
`/public/v1/chat`. An `Except.error` result is raised before any network
activity. `String.length` counts characters where JavaScript counts
UTF-16 code units; the two agree on the inputs the claims are about. -/
def postMessageDispatch (params : Option ChatMessageRequest) :
    Except KickApiError ChatDispatchRecord :=
  match params with
  | none => .error (KickBadRequestError "content is required" none none)
  | some p =>
    if !strTruthy p.content then
      .error (KickBadRequestError "content is required" none none)
    else if chatTypeInvalid p.type then
      .error (KickBadRequestError "type must be 'user' or 'bot'" none none)
    else if (p.content.getD "").length > 500 then
      .error (KickBadRequestError "content must be 500 characters or less" none none)
    else if p.type == some "user" && !intTruthy p.broadcaster_user_id then
      .error (KickBadRequestError "broadcaster_user_id is required when type is 'user'" none none)
    else
      .ok { endpoint := "/public/v1/chat", method := "POST", params := p }

/-- `ChatModule.postMessage` composed with the network (`net` maps the
dispatched call to the server's reply). -/
def postMessage (params : Option ChatMessageRequest)
    (net : ChatDispatchRecord → ChatMessageResponse) : Except KickApiError ChatMessageResponse :=
  match postMessageDispatch params with
  | .error e => .error e
  | .ok r => .ok (net r)

/-- The parameter object of `ChannelsModule.getChannels`. -/
structure GetChannelsParams where
  broadcaster_user_id : Option (List Int)
  slug : Option (List String)
deriving DecidableEq, Repr

/-- The outbound call `ChannelsModule.getChannels` hands to
`client.request`: the route and the query pairs appended to the
`URLSearchParams` (the final `?`-encoded string is abstracted as the
ordered pair list). -/
structure ChannelsDispatchRecord where
  route : String
  query : List (String × String)
deriving DecidableEq, Repr

/-- `ChannelsModule.getChannels` (`src/modules/channels.ts` lines 85-122):
the four local validations in source order (an array field is truthy in
JavaScript even when empty, so the presence tests are `isSome`), then the
GET with one `broadcaster_user_id` pair per id followed by one `slug`
pair per slug. -/
def getChannelsDispatch (params : Option GetChannelsParams) :
    Except KickApiError ChannelsDispatchRecord :=
  match params with
  | none => .ok { route := "/public/v1/channels", query := [] }
  | some p =>
    if p.broadcaster_user_id.isSome && p.slug.isSome then
      .error (KickBadRequestError
        "Cannot mix broadcaster_user_id and slug parameters in the same request" none none)
    else if (p.broadcaster_user_id.getD []).length > 50 then
      .error (KickBadRequestError "Cannot provide more than 50 broadcaster user IDs" none none)
    else if (p.slug.getD []).length > 50 then
      .error (KickBadRequestError "Cannot provide more than 50 slugs" none none)
    else if (p.slug.getD []).any (fun s => s.length > 25) then
      .error (KickBadRequestError "Each slug must be 25 characters or less" none none)
    else
      .ok { route := "/public/v1/channels"
            query := (p.broadcaster_user_id.getD []).map (fun id => ("broadcaster_user_id", toString id))
              ++ (p.slug.getD []).map (fun s => ("slug", s)) }

/-- A PKCE parameter bundle (`OAuthAuthorizationParams` in `src/types.ts`). -/
structure OAuthAuthorizationParams where
  codeVerifier : String
  codeChallenge : String
  state : Option String
deriving DecidableEq, Repr

/-- The URL `getAuthorizationUrl` returns: the location and the query
parameters set on it, in order (each key is set once, so `set` is an
append). -/
structure AuthorizationUrl where
  base : String
  query : List (String × String)
deriving DecidableEq, Repr

/-- `KickClient.getAuthorizationUrl` (`src/client.ts` lines 41-62): throws a
plain `Error` when `this.config.redirectUri` is falsy; otherwise builds
`{oauthUrl}/oauth/authorize` with the six fixed query parameters and,
when `params.state` is truthy, the `state` parameter. -/
def getAuthorizationUrl (cfg : KickClientConfig) (params : OAuthAuthorizationParams)
    (scopes : List String) : Except String AuthorizationUrl :=
  let errMsg := "redirectUri is required for user authentication flow."
    ++ " For server-to-server, tokens are handled automatically."
  match cfg.redirectUri with
  | none => .error errMsg
  | some r =>
    if r.isEmpty then .error errMsg
    else
      .ok { base := cfg.oauthUrl ++ "/oauth/authorize"
            query := [("response_type", "code"),
                      ("client_id", cfg.clientId),
                      ("redirect_uri", r),
                      ("scope", String.intercalate " " scopes),
                      ("code_challenge", params.codeChallenge),
                      ("code_challenge_method", "S256")]
              ++ (match params.state with
                  | some s => if s.isEmpty then [] else [("state", s)]
                  | none => []) }

/-- `getAuthorizationUrl` with the declared default argument
`scopes = ["public"]`. -/
def getAuthorizationUrlDefault (cfg : KickClientConfig)
    (params : OAuthAuthorizationParams) : Except String AuthorizationUrl :=
  getAuthorizationUrl cfg params ["public"]

/-- Whether a module call failed locally with a Bad Request error (the only
way a validation failure surfaces: the error is constructed and thrown
before the dispatch, so an `error` result entails that no network call
was made). -/
def isBadRequestResult {α : Type} : Except KickApiError α → Bool
  | .error e => e.name == KickErrorName.badRequest && e.status == 400
  | .ok _ => false

/-- Whether a call failed (threw). -/
def exceptFails {ε α : Type} : Except ε α → Bool
  | .error _ => true
  | .ok _ => false

/-- A network stub replying with the fixed response `r` to every dispatched
chat message. -/
def constNet (r : ChatMessageResponse) : ChatDispatchRecord → ChatMessageResponse :=
  fun _ => r

/-! ## Lemmas about the credential manager's scheduler model -/

/-- While `tokenPromise` holds a pending promise, every arriving caller
awaits that promise and the manager state does not change. -/
theorem runArrivals_pending (now : Int) (n : Nat) (st : MgrState) (pid : Nat)
    (h : st.tokenPromise = some pid) :
    runArrivals now n st = (List.replicate n (CallStep.awaitsPending pid), st) := by
  induction n with
  | zero => simp [runArrivals]
  | succ n ih =>
    simp only [runArrivals, getAccessTokenEntry, h, ih, List.replicate]

/-- With no pending promise and no valid cached token, the arriving caller
starts an acquisition: it publishes the fresh promise id in `tokenPromise`
and increments the count of started network operations. -/
theorem getAccessTokenEntry_start (now : Int) (st : MgrState)
    (hp : st.tokenPromise = none) (hv : isTokenValid now st.token = false) :
    getAccessTokenEntry now st =
      (CallStep.startsAcquisition st.nextPromiseId,
        { st with tokenPromise := some st.nextPromiseId
                  nextPromiseId := st.nextPromiseId + 1
                  acquisitionsStarted := st.acquisitionsStarted + 1 }) := by
  unfold getAccessTokenEntry
  rw [hp]
  cases htok : st.token with
  | none => rfl
  | some t =>
    rw [htok] at hv
    simp only [isTokenValid, decide_eq_false_iff_not] at hv
    simp [hv]

/-- **C1.** For every burst of `n ≥ 1` concurrent `getAccessToken` calls on
one client instance while no valid token is cached and no acquisition is
in flight, exactly one token-acquisition network operation is started
(`acquisitionsStarted` grows by exactly one): the first caller starts it
and every later caller awaits that same pending promise, so under any
resolution of the promises all `n` callers observe the same resulting
access token or the same failure. -/
theorem c1_concurrent_getAccessToken_single_acquisition
    (now : Int) (st : MgrState) (n : Nat)
    (hp : st.tokenPromise = none) (hv : isTokenValid now st.token = false) (hn : 0 < n) :
    (runArrivals now n st).1 =
        CallStep.startsAcquisition st.nextPromiseId
          :: List.replicate (n - 1) (CallStep.awaitsPending st.nextPromiseId)
      ∧ (runArrivals now n st).2.acquisitionsStarted = st.acquisitionsStarted + 1
      ∧ (runArrivals now n st).2.tokenPromise = some st.nextPromiseId
      ∧ ∀ (resolve : Nat → Except RequestError String),
          ∀ c ∈ (runArrivals now n st).1,
            observedResult resolve c = resolve st.nextPromiseId := by
  obtain ⟨m, rfl⟩ : ∃ m, n = m + 1 := ⟨n - 1, (Nat.succ_pred_eq_of_pos hn).symm⟩
  have hrun : runArrivals now (m + 1) st =
      (CallStep.startsAcquisition st.nextPromiseId
          :: List.replicate m (CallStep.awaitsPending st.nextPromiseId),
        { st with tokenPromise := some st.nextPromiseId
                  nextPromiseId := st.nextPromiseId + 1
                  acquisitionsStarted := st.acquisitionsStarted + 1 }) := by
    simp only [runArrivals, getAccessTokenEntry_start now st hp hv]
    rw [runArrivals_pending now m _ st.nextPromiseId rfl]
  rw [hrun]
  refine ⟨rfl, rfl, rfl, ?_⟩
  intro resolve c hc
  rcases List.mem_cons.mp hc with rfl | hmem
  · rfl
  · rw [List.eq_of_mem_replicate hmem]
    rfl

/-- **C1 witness**: three concurrent callers on a fresh client state start
exactly one acquisition; both followers await promise 0. -/
theorem c1_witness :
    (runArrivals 1000 3 ⟨none, none, 0, 0⟩).1 =
        CallStep.startsAcquisition 0 :: List.replicate 2 (CallStep.awaitsPending 0)
      ∧ (runArrivals 1000 3 ⟨none, none, 0, 0⟩).2.acquisitionsStarted = 0 + 1
      ∧ (runArrivals 1000 3 ⟨none, none, 0, 0⟩).2.tokenPromise = some 0 := by
  have h := c1_concurrent_getAccessToken_single_acquisition 1000 ⟨none, none, 0, 0⟩ 3
    rfl rfl (by decide)
  exact ⟨h.1, h.2.1, h.2.2.1⟩

/-- **C2.** With a cached token and no acquisition in flight,
`getAccessToken` returns the cached access value with the state untouched
(hence no network call) if and only if the current time is strictly
before the token's expiry instant minus 60 seconds; once the current time
reaches or passes that threshold, the call starts an acquisition
instead. -/
theorem c2_cached_token_reused_iff_before_expiry_margin
    (now : Int) (st : MgrState) (t : OAuthToken)
    (hp : st.tokenPromise = none) (ht : st.token = some t) :
    (((getAccessTokenEntry now st).1 = CallStep.returnsCached t.accessToken
        ∧ (getAccessTokenEntry now st).2 = st)
      ↔ now < t.expiresAt - 60000)
    ∧ (t.expiresAt - 60000 ≤ now →
        (getAccessTokenEntry now st).1 = CallStep.startsAcquisition st.nextPromiseId
        ∧ (getAccessTokenEntry now st).2.acquisitionsStarted = st.acquisitionsStarted + 1) := by
  have hentry : getAccessTokenEntry now st =
      if now < t.expiresAt - 60000 then (CallStep.returnsCached t.accessToken, st)
      else (CallStep.startsAcquisition st.nextPromiseId,
        { st with tokenPromise := some st.nextPromiseId
                  nextPromiseId := st.nextPromiseId + 1
                  acquisitionsStarted := st.acquisitionsStarted + 1 }) := by
    unfold getAccessTokenEntry
    rw [hp, ht]
  by_cases h : now < t.expiresAt - 60000
  · rw [hentry, if_pos h]
    exact ⟨⟨fun _ => h, fun _ => ⟨rfl, rfl⟩⟩, fun hle => absurd h (not_lt.mpr hle)⟩
  · rw [hentry, if_neg h]
    refine ⟨⟨?_, fun hlt => absurd hlt h⟩, fun _ => ⟨rfl, rfl⟩⟩
    rintro ⟨-, h2⟩
    have h3 := congrArg MgrState.tokenPromise h2
    simp [hp] at h3

/-- **C2 witness**: at time 10000 a token expiring at 100000 is served from
the cache; the threshold case is vacuously covered. -/
theorem c2_witness :
    (((getAccessTokenEntry 10000 ⟨some ⟨"tok", "bearer", 3600, none, none, 100000⟩, none, 0, 0⟩).1
          = CallStep.returnsCached "tok"
        ∧ (getAccessTokenEntry 10000 ⟨some ⟨"tok", "bearer", 3600, none, none, 100000⟩, none, 0, 0⟩).2
          = ⟨some ⟨"tok", "bearer", 3600, none, none, 100000⟩, none, 0, 0⟩)
      ↔ (10000 : Int) < 100000 - 60000)
    ∧ ((100000 : Int) - 60000 ≤ 10000 →
        (getAccessTokenEntry 10000 ⟨some ⟨"tok", "bearer", 3600, none, none, 100000⟩, none, 0, 0⟩).1
          = CallStep.startsAcquisition 0
        ∧ (getAccessTokenEntry 10000 ⟨some ⟨"tok", "bearer", 3600, none, none, 100000⟩, none, 0, 0⟩).2.acquisitionsStarted
          = 0 + 1) :=
  c2_cached_token_reused_iff_before_expiry_margin 10000
    ⟨some ⟨"tok", "bearer", 3600, none, none, 100000⟩, none, 0, 0⟩
    ⟨"tok", "bearer", 3600, none, none, 100000⟩ rfl rfl

/-! ## Lemmas about the acquisition strategies -/

/-- A failed refresh leaves the cached token slot exactly as it was. -/
theorem refreshAccessToken_error_preserves (now : Int) (token : Option OAuthToken)
    (net : TokenFetchOutcome) (e : RequestError) (tok2 : Option OAuthToken)
    (h : refreshAccessToken now token net = (.error e, tok2)) : tok2 = token := by
  cases token with
  | none =>
    simp [refreshAccessToken] at h
    exact h.2.symm
  | some t =>
    cases hrt : t.refreshToken with
    | none =>
      simp [refreshAccessToken, hrt] at h
      exact h.2.symm
    | some rt =>
      by_cases he : rt.isEmpty
      · simp [refreshAccessToken, hrt, he] at h
        exact h.2.symm
      · cases net with
        | success data => simp [refreshAccessToken, hrt, he] at h
        | httpError s stx b =>
          simp [refreshAccessToken, hrt, he] at h
          exact h.2.symm
        | thrown e2 =>
          simp [refreshAccessToken, hrt, he] at h
          exact h.2.symm

/-- A failed client-credentials acquisition leaves the cached token slot
exactly as it was. -/
theorem getClientCredentialsToken_error_preserves (now : Int) (token : Option OAuthToken)
    (net : TokenFetchOutcome) (e : RequestError) (tok2 : Option OAuthToken)
    (h : getClientCredentialsToken now token net = (.error e, tok2)) : tok2 = token := by
  cases net with
  | success data => simp [getClientCredentialsToken] at h
  | httpError s stx b =>
    simp [getClientCredentialsToken] at h
    exact h.2.symm
  | thrown e2 =>
    simp [getClientCredentialsToken] at h
    exact h.2.symm

/-- A failing `autoRefreshTail` leaves the cached token slot exactly as it
was. -/
theorem autoRefreshTail_error_preserves (now : Int) (cfg : KickClientConfig)
    (token : Option OAuthToken) (ccNet : TokenFetchOutcome) (e : RequestError)
    (tok2 : Option OAuthToken)
    (h : autoRefreshTail now cfg token ccNet = (.error e, tok2)) : tok2 = token := by
  by_cases hr : strTruthy cfg.redirectUri
  · simp [autoRefreshTail, hr] at h
    exact h.2.symm
  · simp [autoRefreshTail, hr] at h
    exact getClientCredentialsToken_error_preserves now token ccNet e tok2 h

/-- A failing `autoRefreshToken` leaves the cached token slot exactly as it
was. -/
theorem autoRefreshToken_error_preserves (now : Int) (cfg : KickClientConfig)
    (token : Option OAuthToken) (refreshNet ccNet : TokenFetchOutcome) (e : RequestError)
    (tok2 : Option OAuthToken)
    (h : autoRefreshToken now cfg token refreshNet ccNet = (.error e, tok2)) :
    tok2 = token := by
  by_cases htr : strTruthy (Option.bind token OAuthToken.refreshToken)
  · cases hres : refreshAccessToken now token refreshNet with
    | mk r t2 =>
      cases r with
      | ok v => simp [autoRefreshToken, htr, hres] at h
      | error e2 =>
        simp [autoRefreshToken, htr, hres] at h
        have ht2 := refreshAccessToken_error_preserves now token refreshNet e2 t2 hres
        rw [← ht2]
        exact autoRefreshTail_error_preserves now cfg t2 ccNet e tok2 h
  · simp [autoRefreshToken, htr] at h
    exact autoRefreshTail_error_preserves now cfg token ccNet e tok2 h

/-- **C3.** `autoRefreshToken`'s acquisition policy: (a) when the cached
token carries a (truthy) refresh value, the refresh flow runs first and a
successful refresh is returned as-is; (b) when the refresh path is
unusable and no redirect target is configured, the result is exactly a
client-credentials acquisition; (b') the same fallback after a failed
refresh attempt; (c)/(c') when a redirect target is configured and the
refresh path is unusable or failed, the call fails with the
authentication-required OAuth error of status 401 and no further
acquisition is performed (the state is returned unchanged: no
user-interactive flow is initiated). -/
theorem c3_acquisition_policy (now : Int) (cfg : KickClientConfig)
    (token : Option OAuthToken) (refreshNet ccNet : TokenFetchOutcome) :
    (strTruthy (Option.bind token OAuthToken.refreshToken) = true →
      ∀ v tok2, refreshAccessToken now token refreshNet = (.ok v, tok2) →
        autoRefreshToken now cfg token refreshNet ccNet = (.ok v, tok2))
    ∧ (strTruthy (Option.bind token OAuthToken.refreshToken) = false →
        strTruthy cfg.redirectUri = false →
        autoRefreshToken now cfg token refreshNet ccNet
          = getClientCredentialsToken now token ccNet)
    ∧ (∀ e tok2, refreshAccessToken now token refreshNet = (.error e, tok2) →
        strTruthy cfg.redirectUri = false →
        autoRefreshToken now cfg token refreshNet ccNet
          = getClientCredentialsToken now tok2 ccNet)
    ∧ (strTruthy (Option.bind token OAuthToken.refreshToken) = false →
        strTruthy cfg.redirectUri = true →
        autoRefreshToken now cfg token refreshNet ccNet
          = (.error (.kick authRequiredError), token))
    ∧ (∀ e tok2, refreshAccessToken now token refreshNet = (.error e, tok2) →
        strTruthy cfg.redirectUri = true →
        autoRefreshToken now cfg token refreshNet ccNet
          = (.error (.kick authRequiredError), tok2))
    ∧ authRequiredError.status = 401 ∧ authRequiredError.name = KickErrorName.oauthError := by
  refine ⟨?_, ?_, ?_, ?_, ?_, rfl, rfl⟩
  · intro htr v tok2 hres
    simp [autoRefreshToken, htr, hres]
  · intro htr hr
    simp [autoRefreshToken, autoRefreshTail, htr, hr]
  · intro e tok2 hres hr
    by_cases htr : strTruthy (Option.bind token OAuthToken.refreshToken)
    · simp [autoRefreshToken, autoRefreshTail, htr, hres, hr]
    · have ht2 : tok2 = token :=
        refreshAccessToken_error_preserves now token refreshNet e tok2 hres
      rw [ht2]
      simp [autoRefreshToken, autoRefreshTail, htr, hr]
  · intro htr hr
    simp [autoRefreshToken, autoRefreshTail, htr, hr]
  · intro e tok2 hres hr
    by_cases htr : strTruthy (Option.bind token OAuthToken.refreshToken)
    · simp [autoRefreshToken, autoRefreshTail, htr, hres, hr]
    · have ht2 : tok2 = token :=
        refreshAccessToken_error_preserves now token refreshNet e tok2 hres
      rw [ht2]
      simp [autoRefreshToken, autoRefreshTail, htr, hr]

/-- **C3 witness**: with a cached refresh value, a failed refresh (HTTP 400)
in bot mode falls back to exactly a client-credentials acquisition; in
user mode with no cached token the call fails with the
authentication-required 401 OAuth error. -/
theorem c3_witness :
    autoRefreshToken 0 ⟨"id", "sec", none, "b", "o", false⟩
        (some ⟨"atk", "bearer", 3600, some "r1", none, 0⟩)
        (.httpError 400 "Bad Request" none) (.success ⟨"newtk", "bearer", 3600, none, none⟩)
      = getClientCredentialsToken 0 (some ⟨"atk", "bearer", 3600, some "r1", none, 0⟩)
          (.success ⟨"newtk", "bearer", 3600, none, none⟩)
    ∧ autoRefreshToken 0 ⟨"id", "sec", some "http://cb", "b", "o", false⟩ none
        (.httpError 400 "Bad Request" none) (.success ⟨"newtk", "bearer", 3600, none, none⟩)
      = (.error (.kick authRequiredError), none) := by
  constructor
  · exact (c3_acquisition_policy 0 ⟨"id", "sec", none, "b", "o", false⟩
      (some ⟨"atk", "bearer", 3600, some "r1", none, 0⟩)
      (.httpError 400 "Bad Request" none)
      (.success ⟨"newtk", "bearer", 3600, none, none⟩)).2.2.1
      (.kick (KickOAuthError ("Token refresh failed: " ++ toString (400 : Int) ++ " " ++ "Bad Request")
        400 none))
      (some ⟨"atk", "bearer", 3600, some "r1", none, 0⟩) rfl rfl
  · exact (c3_acquisition_policy 0 ⟨"id", "sec", some "http://cb", "b", "o", false⟩ none
      (.httpError 400 "Bad Request" none)
      (.success ⟨"newtk", "bearer", 3600, none, none⟩)).2.2.2.1 rfl rfl

/-- **C6.** A successful refresh replaces the cached token wholesale with
the record built from the server's reply: every field comes from the
reply, the expiry instant is the acquisition time plus the returned
lifetime (seconds, scaled to the millisecond clock), and the stored
refresh value is the server-supplied one when a truthy one is present and
the previous cached refresh value when the reply omits one. -/
theorem c6_refresh_success_replaces_token_wholesale
    (now : Int) (t : OAuthToken) (rt : String) (data : TokenResponseData)
    (hrt : t.refreshToken = some rt) (hne : rt ≠ "") :
    refreshAccessToken now (some t) (.success data)
      = (.ok data.access_token,
          some { accessToken := data.access_token
                 tokenType := data.token_type
                 expiresIn := data.expires_in
                 refreshToken := if strTruthy data.refresh_token then data.refresh_token
                   else some rt
                 scope := data.scope
                 expiresAt := now + data.expires_in * 1000 })
    ∧ (∀ s, data.refresh_token = some s → s ≠ "" →
        (if strTruthy data.refresh_token then data.refresh_token else some rt) = some s)
    ∧ (data.refresh_token = none →
        (if strTruthy data.refresh_token then data.refresh_token else some rt) = some rt) := by
  have he : ¬(rt.isEmpty = true) := fun hc => hne ((String.isEmpty_iff rt).mp hc)
  refine ⟨?_, ?_, ?_⟩
  · simp [refreshAccessToken, hrt, he, tokenOfResponse]
  · intro s hs hsne
    have hf : s.isEmpty = false := by
      rw [Bool.eq_false_iff]
      intro hc
      exact hsne ((String.isEmpty_iff s).mp hc)
    rw [hs]
    simp [strTruthy, hf]
  · intro h0
    rw [h0]
    simp [strTruthy]

/-- **C6 witness**: refreshing with a reply that carries a new refresh value
stores it; refreshing with a reply that omits the refresh value keeps the
previous one; the expiry is the acquisition instant plus the lifetime. -/
theorem c6_witness :
    refreshAccessToken 500 (some ⟨"old", "bearer", 10, some "r1", none, 0⟩)
        (.success ⟨"new", "bearer", 3600, some "r2", none⟩)
      = (.ok "new", some ⟨"new", "bearer", 3600, some "r2", none, 500 + 3600 * 1000⟩)
    ∧ refreshAccessToken 500 (some ⟨"old", "bearer", 10, some "r1", none, 0⟩)
        (.success ⟨"new", "bearer", 3600, none, none⟩)
      = (.ok "new", some ⟨"new", "bearer", 3600, some "r1", none, 500 + 3600 * 1000⟩) := by
  constructor
  · have h := (c6_refresh_success_replaces_token_wholesale 500
      ⟨"old", "bearer", 10, some "r1", none, 0⟩ "r1" ⟨"new", "bearer", 3600, some "r2", none⟩
      rfl (by decide)).1
    exact h
  · have h := (c6_refresh_success_replaces_token_wholesale 500
      ⟨"old", "bearer", 10, some "r1", none, 0⟩ "r1" ⟨"new", "bearer", 3600, none, none⟩
      rfl (by decide)).1
    exact h

/-- **C10.** Whenever a complete `getAccessToken` run fails — a failed
refresh followed by a failed client-credentials acquisition, a failed
client-credentials acquisition alone, or the user-mode
authentication-required error — the cached token slot after the call is
exactly what it was before it: a new token record is only ever stored
after a successful token-endpoint response. -/
theorem c10_failed_acquisition_preserves_cached_token
    (now : Int) (cfg : KickClientConfig) (token : Option OAuthToken)
    (refreshNet ccNet : TokenFetchOutcome) (e : RequestError) (tok2 : Option OAuthToken)
    (h : getAccessTokenRun now cfg token refreshNet ccNet = (.error e, tok2)) :
    tok2 = token := by
  cases token with
  | none =>
    simp only [getAccessTokenRun] at h
    exact autoRefreshToken_error_preserves now cfg none refreshNet ccNet e tok2 h
  | some t =>
    by_cases hv : now < t.expiresAt - 60000
    · simp [getAccessTokenRun, hv] at h
    · simp only [getAccessTokenRun, if_neg hv] at h
      exact autoRefreshToken_error_preserves now cfg (some t) refreshNet ccNet e tok2 h

/-- **C10 witness**: a user-mode client with no cached token fails with the
authentication-required error and its token slot stays empty. -/
theorem c10_witness :
    (getAccessTokenRun 0 ⟨"id", "sec", some "http://cb", "b", "o", false⟩ none
        (.httpError 400 "Bad Request" none)
        (.success ⟨"newtk", "bearer", 3600, none, none⟩)).2 = none :=
  c10_failed_acquisition_preserves_cached_token 0
    ⟨"id", "sec", some "http://cb", "b", "o", false⟩ none
    (.httpError 400 "Bad Request" none) (.success ⟨"newtk", "bearer", 3600, none, none⟩)
    (.kick authRequiredError)
    (getAccessTokenRun 0 ⟨"id", "sec", some "http://cb", "b", "o", false⟩ none
      (.httpError 400 "Bad Request" none)
      (.success ⟨"newtk", "bearer", 3600, none, none⟩)).2
    rfl

/-- **C4 counterexample.** The claim fails on the code at two concrete
inputs: a 501 response (a 5xx status) is classified as the generic API
error, not as the server-error kind; and a 400 response's typed error
does not carry the response headers (the subclass constructors pass
`undefined` for them). -/
theorem c4_counterexample :
    (createKickError 501 "Not Implemented" (some "body") (some [("h", "v")]) (some "/e")).name
        = KickErrorName.apiError
    ∧ (createKickError 501 "Not Implemented" (some "body") (some [("h", "v")]) (some "/e")).name
        ≠ KickErrorName.serverError
    ∧ (createKickError 400 "Bad Request" (some "body") (some [("h", "v")]) (some "/e")).headers
        = none := by
  refine ⟨rfl, by decide, rfl⟩

/-- **C4 (amended).** For every non-success HTTP status, `request` raises the
typed error `createKickError` builds: 400 maps to bad-request, 401 to
unauthorized, 403 to forbidden, 404 to not-found, 429 to rate-limit,
exactly the statuses 500, 502, 503 and 504 to server-error, and every
other status (including the remaining 5xx) to the generic API error. The
error always carries the status, the best-effort parsed body and the
endpoint; the response headers are carried only by the generic API error
(the named subclasses drop them, the 429 branch only distills its
retry-after hint from them). -/
theorem c4_status_mapping (status : Int) (statusText : String)
    (responseBody : Option String) (headers : List (String × String)) (endpoint : String) :
    handleResponse endpoint (.httpError status statusText responseBody headers)
      = .error (.kick (createKickError status statusText responseBody (some headers) (some endpoint)))
    ∧ (status = 400 →
        (createKickError status statusText responseBody (some headers) (some endpoint)).name
          = KickErrorName.badRequest)
    ∧ (status = 401 →
        (createKickError status statusText responseBody (some headers) (some endpoint)).name
          = KickErrorName.unauthorized)
    ∧ (status = 403 →
        (createKickError status statusText responseBody (some headers) (some endpoint)).name
          = KickErrorName.forbidden)
    ∧ (status = 404 →
        (createKickError status statusText responseBody (some headers) (some endpoint)).name
          = KickErrorName.notFound)
    ∧ (status = 429 →
        (createKickError status statusText responseBody (some headers) (some endpoint)).name
          = KickErrorName.rateLimit)
    ∧ (status = 500 ∨ status = 502 ∨ status = 503 ∨ status = 504 →
        (createKickError status statusText responseBody (some headers) (some endpoint)).name
          = KickErrorName.serverError)
    ∧ (status ∉ ([400, 401, 403, 404, 429, 500, 502, 503, 504] : List Int) →
        (createKickError status statusText responseBody (some headers) (some endpoint)).name
          = KickErrorName.apiError)
    ∧ (createKickError status statusText responseBody (some headers) (some endpoint)).status
        = status
    ∧ (createKickError status statusText responseBody (some headers) (some endpoint)).responseBody
        = responseBody
    ∧ (createKickError status statusText responseBody (some headers) (some endpoint)).endpoint
        = some endpoint
    ∧ ((createKickError status statusText responseBody (some headers) (some endpoint)).name
          = KickErrorName.apiError →
        (createKickError status statusText responseBody (some headers) (some endpoint)).headers
          = some headers)
    ∧ ((createKickError status statusText responseBody (some headers) (some endpoint)).name
          ≠ KickErrorName.apiError →
        (createKickError status statusText responseBody (some headers) (some endpoint)).headers
          = none) := by
  by_cases hmem : status ∈ ([400, 401, 403, 404, 429, 500, 502, 503, 504] : List Int)
  · simp only [List.mem_cons, List.not_mem_nil, or_false] at hmem
    rcases hmem with rfl | rfl | rfl | rfl | rfl | rfl | rfl | rfl | rfl <;>
      refine ⟨rfl, ?_, ?_, ?_, ?_, ?_, ?_, ?_, ?_, ?_, ?_, ?_, ?_⟩ <;>
        first
          | rfl
          | (intro h
             simp_all [createKickError, KickBadRequestError, KickUnauthorizedError,
               KickForbiddenError, KickNotFoundError, KickRateLimitError, KickServerError,
               mkKickApiError])
  · simp only [List.mem_cons, List.not_mem_nil, or_false, not_or] at hmem
    obtain ⟨h1, h2, h3, h4, h5, h6, h7, h8, h9⟩ := hmem
    refine ⟨rfl, ?_, ?_, ?_, ?_, ?_, ?_, ?_, ?_, ?_, ?_, ?_, ?_⟩
    · intro h; exact absurd h h1
    · intro h; exact absurd h h2
    · intro h; exact absurd h h3
    · intro h; exact absurd h h4
    · intro h; exact absurd h h5
    · intro h; rcases h with h | h | h | h
      exacts [absurd h h6, absurd h h7, absurd h h8, absurd h h9]
    · intro _
      simp [createKickError, mkKickApiError, h1, h2, h3, h4, h5, h6, h7, h8, h9]
    · simp [createKickError, mkKickApiError, h1, h2, h3, h4, h5, h6, h7, h8, h9]
    · simp [createKickError, mkKickApiError, h1, h2, h3, h4, h5, h6, h7, h8, h9]
    · simp [createKickError, mkKickApiError, h1, h2, h3, h4, h5, h6, h7, h8, h9]
    · intro _
      simp [createKickError, mkKickApiError, h1, h2, h3, h4, h5, h6, h7, h8, h9]
    · intro hn
      exfalso
      apply hn
      simp [createKickError, mkKickApiError, h1, h2, h3, h4, h5, h6, h7, h8, h9]

/-- **C4 witness**: the amended mapping evaluated at a 501 response — it is
classified as the generic API error, keeps status 501, body, endpoint and
(being the generic kind) the headers. -/
theorem c4_witness :
    (501 : Int) ∉ ([400, 401, 403, 404, 429, 500, 502, 503, 504] : List Int)
    ∧ (createKickError 501 "Not Implemented" (some "body") (some [("h", "v")]) (some "/e")).name
        = KickErrorName.apiError
    ∧ (createKickError 501 "Not Implemented" (some "body") (some [("h", "v")]) (some "/e")).status
        = 501
    ∧ (createKickError 501 "Not Implemented" (some "body") (some [("h", "v")]) (some "/e")).headers
        = some [("h", "v")] := by
  have h := c4_status_mapping 501 "Not Implemented" (some "body") [("h", "v")] "/e"
  exact ⟨by decide, h.2.2.2.2.2.2.2.1 (by decide), h.2.2.2.2.2.2.2.2.1,
    h.2.2.2.2.2.2.2.2.2.2.2.1 (h.2.2.2.2.2.2.2.1 (by decide))⟩

/-- **C5.** A 429 response whose retry-after header is "30" surfaces as the
rate-limit error with retry hint 30; a 404 response surfaces as the
not-found error; an exception that is not a typed Kick error (its
constructor name does not start with "Kick", as holds for every
connection failure) surfaces as a network error wrapping the original
cause unchanged. -/
theorem c5_error_surface (endpoint : String) (body : Option String) :
    (∀ statusText hs, headerLookup hs "retry-after" = some "30" →
      handleResponse endpoint (.httpError 429 statusText body hs)
        = .error (.kick (KickRateLimitError (toString (429 : Int) ++ " " ++ statusText) body
            (some 30) (some endpoint))))
    ∧ (∀ statusText hs,
        handleResponse endpoint (.httpError 404 statusText body hs)
          = .error (.kick (KickNotFoundError (toString (404 : Int) ++ " " ++ statusText) body
              (some endpoint))))
    ∧ (∀ e : JsError, jsStartsWith e.constructorName "Kick" = false →
        handleResponse endpoint (.thrown e)
          = .error (.network ("Request to " ++ endpoint ++ " failed") e)) := by
  refine ⟨?_, ?_, ?_⟩
  · intro statusText hs hlook
    simp only [handleResponse, createKickError]
    rw [hlook]
    rfl
  · intro statusText hs
    rfl
  · intro e he
    simp [handleResponse, he]

/-- **C5 witness**: the three scenarios at concrete inputs. -/
theorem c5_witness :
    handleResponse "/e" (.httpError 429 "Too Many Requests" (some "b") [("retry-after", "30")])
      = .error (.kick (KickRateLimitError (toString (429 : Int) ++ " " ++ "Too Many Requests")
          (some "b") (some 30) (some "/e")))
    ∧ handleResponse "/e" (.httpError 404 "Not Found" (some "b") [])
      = .error (.kick (KickNotFoundError (toString (404 : Int) ++ " " ++ "Not Found") (some "b")
          (some "/e")))
    ∧ handleResponse "/e" (.thrown ⟨"TypeError", "fetch failed"⟩)
      = .error (.network ("Request to " ++ "/e" ++ " failed") ⟨"TypeError", "fetch failed"⟩) := by
  have h := c5_error_surface "/e" (some "b")
  exact ⟨h.1 "Too Many Requests" [("retry-after", "30")] (by decide),
    h.2.1 "Not Found" [],
    h.2.2 ⟨"TypeError", "fetch failed"⟩ (by decide)⟩

/-- **C7.** `postMessage` validation: it fails locally with a Bad Request
error (before the dispatch, hence with no network call) when the content
is missing, when the content exceeds 500 characters, when the type is
neither "user" nor "bot", and when the type is "user" with no
broadcaster id; a "bot" message with valid content is dispatched to the
chat endpoint and resolves to the server's reply (which carries the
message id). -/
theorem c7_postMessage_validation (p : ChatMessageRequest) :
    (p.content = none → isBadRequestResult (postMessageDispatch (some p)) = true)
    ∧ (∀ c, p.content = some c → c.length > 500 →
        isBadRequestResult (postMessageDispatch (some p)) = true)
    ∧ (p.type ≠ some "user" → p.type ≠ some "bot" →
        isBadRequestResult (postMessageDispatch (some p)) = true)
    ∧ (p.type = some "user" → p.broadcaster_user_id = none →
        isBadRequestResult (postMessageDispatch (some p)) = true)
    ∧ (∀ c, p.type = some "bot" → p.content = some c → c ≠ "" → c.length ≤ 500 →
        ∀ net, postMessage (some p) net
          = .ok (net { endpoint := "/public/v1/chat", method := "POST", params := p })) := by
  refine ⟨?_, ?_, ?_, ?_, ?_⟩
  · intro h
    simp [postMessageDispatch, strTruthy, h, isBadRequestResult, KickBadRequestError]
  · intro c hc hlen
    by_cases h1 : strTruthy p.content
    · rw [hc] at h1
      by_cases h2 : chatTypeInvalid p.type
      · simp [postMessageDispatch, hc, h1, h2, isBadRequestResult, KickBadRequestError]
      · simp [postMessageDispatch, hc, h1, h2, hlen, isBadRequestResult, KickBadRequestError]
    · rw [hc] at h1
      simp [postMessageDispatch, hc, h1, isBadRequestResult, KickBadRequestError]
  · intro hu hb
    have h2 : chatTypeInvalid p.type = true := by
      cases htp : p.type with
      | none => rfl
      | some s =>
        have hsu : s ≠ "user" := fun hcc => hu (by rw [htp, hcc])
        have hsb : s ≠ "bot" := fun hcc => hb (by rw [htp, hcc])
        simp [chatTypeInvalid, hsu, hsb]
    by_cases h1 : strTruthy p.content
    · simp [postMessageDispatch, h1, h2, isBadRequestResult, KickBadRequestError]
    · simp [postMessageDispatch, h1, isBadRequestResult, KickBadRequestError]
  · intro htu hb
    by_cases h1 : strTruthy p.content
    · have h2 : chatTypeInvalid (some "user") = false := rfl
      by_cases h3 : (p.content.getD "").length > 500
      · simp [postMessageDispatch, htu, h1, h2, h3, isBadRequestResult, KickBadRequestError]
      · simp [postMessageDispatch, htu, h1, h2, h3, hb, intTruthy, isBadRequestResult,
          KickBadRequestError]
    · simp [postMessageDispatch, h1, isBadRequestResult, KickBadRequestError]
  · intro c htp hc hcne hlen net
    have hf : c.isEmpty = false := by
      rw [Bool.eq_false_iff]
      intro hcc
      exact hcne ((String.isEmpty_iff c).mp hcc)
    have hnl : ¬(c.length > 500) := not_lt.mpr hlen
    simp [postMessage, postMessageDispatch, hc, htp, hf, hnl, strTruthy, chatTypeInvalid,
      intTruthy]

/-- **C7 witness**: a bot message "hi" is dispatched and resolves to the
stub reply (with its message id); a message without content fails the
local Bad Request validation. -/
theorem c7_witness :
    postMessage (some ⟨some "bot", some "hi", none, none⟩) (constNet ⟨true, "msg1"⟩)
      = .ok ⟨true, "msg1"⟩
    ∧ isBadRequestResult (postMessageDispatch (some ⟨some "bot", none, none, none⟩)) = true := by
  refine ⟨?_, ?_⟩
  · exact (c7_postMessage_validation ⟨some "bot", some "hi", none, none⟩).2.2.2.2 "hi"
      rfl rfl (by decide) (by decide) (constNet ⟨true, "msg1"⟩)
  · exact (c7_postMessage_validation ⟨some "bot", none, none, none⟩).1 rfl

/-- **C8.** `getChannels` validation: supplying both `broadcaster_user_id`
and `slug`, more than 50 ids, more than 50 slugs, or any slug longer than
25 characters fails locally with a Bad Request error before the dispatch
(no network round trip); otherwise the request is dispatched to the
channels route with one query pair per supplied id followed by one per
supplied slug. -/
theorem c8_getChannels_validation (p : GetChannelsParams) :
    (∀ ids slugs, p.broadcaster_user_id = some ids → p.slug = some slugs →
        isBadRequestResult (getChannelsDispatch (some p)) = true)
    ∧ (∀ ids, p.broadcaster_user_id = some ids → ids.length > 50 →
        isBadRequestResult (getChannelsDispatch (some p)) = true)
    ∧ (∀ slugs, p.slug = some slugs → slugs.length > 50 →
        isBadRequestResult (getChannelsDispatch (some p)) = true)
    ∧ (∀ slugs s, p.slug = some slugs → s ∈ slugs → s.length > 25 →
        isBadRequestResult (getChannelsDispatch (some p)) = true)
    ∧ (¬(p.broadcaster_user_id.isSome = true ∧ p.slug.isSome = true) →
        (p.broadcaster_user_id.getD []).length ≤ 50 →
        (p.slug.getD []).length ≤ 50 →
        (∀ s ∈ p.slug.getD [], s.length ≤ 25) →
        getChannelsDispatch (some p)
          = .ok { route := "/public/v1/channels"
                  query := (p.broadcaster_user_id.getD []).map
                      (fun id => ("broadcaster_user_id", toString id))
                    ++ (p.slug.getD []).map (fun s => ("slug", s)) }) := by
  refine ⟨?_, ?_, ?_, ?_, ?_⟩
  · intro ids slugs hb hs
    simp [getChannelsDispatch, hb, hs, isBadRequestResult, KickBadRequestError]
  · intro ids hb hlen
    by_cases hs : p.slug.isSome
    · simp [getChannelsDispatch, hb, hs, isBadRequestResult, KickBadRequestError]
    · simp [getChannelsDispatch, hb, hs, hlen, isBadRequestResult, KickBadRequestError]
  · intro slugs hsl hlen
    by_cases hb : p.broadcaster_user_id.isSome
    · simp [getChannelsDispatch, hsl, hb, isBadRequestResult, KickBadRequestError]
    · have hbn := Option.not_isSome_iff_eq_none.mp hb
      simp [getChannelsDispatch, hsl, hbn, hlen, isBadRequestResult, KickBadRequestError]
  · intro slugs s hsl hmem hslen
    by_cases hb : p.broadcaster_user_id.isSome
    · simp [getChannelsDispatch, hsl, hb, isBadRequestResult, KickBadRequestError]
    · have hbn := Option.not_isSome_iff_eq_none.mp hb
      by_cases hlen : slugs.length > 50
      · simp [getChannelsDispatch, hsl, hbn, hlen, isBadRequestResult, KickBadRequestError]
      · have hany : slugs.any (fun s => s.length > 25) = true :=
          List.any_eq_true.mpr ⟨s, hmem, by simpa using hslen⟩
        simp [getChannelsDispatch, hsl, hbn, hlen, hany, isBadRequestResult,
          KickBadRequestError]
  · intro hmix hblen hslen hsall
    have hmix2 : (p.broadcaster_user_id.isSome && p.slug.isSome) = false := by
      cases hb : p.broadcaster_user_id.isSome
      · simp
      · cases hs : p.slug.isSome
        · simp
        · exact absurd ⟨hb, hs⟩ hmix
    have h2 : ¬((p.broadcaster_user_id.getD []).length > 50) := not_lt.mpr hblen
    have h3 : ¬((p.slug.getD []).length > 50) := not_lt.mpr hslen
    have h4 : ((p.slug.getD []).any (fun s => s.length > 25)) = false := by
      rw [List.any_eq_false]
      intro x hx
      simpa using not_lt.mpr (hsall x hx)
    simp [getChannelsDispatch, hmix2, h2, h3, h4]

/-- **C8 witness**: mixing ids and slugs fails the local Bad Request
validation; a single id is dispatched as one query pair. -/
theorem c8_witness :
    isBadRequestResult (getChannelsDispatch (some ⟨some [1], some ["a"]⟩)) = true
    ∧ getChannelsDispatch (some ⟨some [7], none⟩)
      = .ok ⟨"/public/v1/channels", [("broadcaster_user_id", "7")]⟩ := by
  refine ⟨?_, ?_⟩
  · exact (c8_getChannels_validation ⟨some [1], some ["a"]⟩).1 [1] ["a"] rfl rfl
  · exact (c8_getChannels_validation ⟨some [7], none⟩).2.2.2.2 (by decide) (by decide)
      (by decide) (by decide)

/-- **C9.** `getAuthorizationUrl` fails when no redirect target is
configured; otherwise it returns a URL against
`{authServer}/oauth/authorize` whose query parameters are
`response_type=code`, the client id, the redirect target, the
space-joined scope list, the code challenge, `code_challenge_method=S256`
and — exactly when a (truthy) state value is provided — the state; with
the default argument the scope is "public". -/
theorem c9_authorization_url (cfg : KickClientConfig) (params : OAuthAuthorizationParams)
    (scopes : List String) :
    (cfg.redirectUri = none → exceptFails (getAuthorizationUrl cfg params scopes) = true)
    ∧ (∀ r, cfg.redirectUri = some r → r ≠ "" →
        (strTruthy params.state = false →
          getAuthorizationUrl cfg params scopes
            = .ok ⟨cfg.oauthUrl ++ "/oauth/authorize",
                [("response_type", "code"), ("client_id", cfg.clientId), ("redirect_uri", r),
                 ("scope", String.intercalate " " scopes),
                 ("code_challenge", params.codeChallenge),
                 ("code_challenge_method", "S256")]⟩)
        ∧ (∀ s, params.state = some s → s ≠ "" →
            getAuthorizationUrl cfg params scopes
              = .ok ⟨cfg.oauthUrl ++ "/oauth/authorize",
                  [("response_type", "code"), ("client_id", cfg.clientId), ("redirect_uri", r),
                   ("scope", String.intercalate " " scopes),
                   ("code_challenge", params.codeChallenge),
                   ("code_challenge_method", "S256"), ("state", s)]⟩))
    ∧ (∀ r, cfg.redirectUri = some r → r ≠ "" → strTruthy params.state = false →
        getAuthorizationUrlDefault cfg params
          = .ok ⟨cfg.oauthUrl ++ "/oauth/authorize",
              [("response_type", "code"), ("client_id", cfg.clientId), ("redirect_uri", r),
               ("scope", "public"), ("code_challenge", params.codeChallenge),
               ("code_challenge_method", "S256")]⟩) := by
  have hpub : String.intercalate " " ["public"] = "public" := rfl
  refine ⟨?_, ?_, ?_⟩
  · intro h
    simp [getAuthorizationUrl, h, exceptFails]
  · intro r hr hrne
    have hre : r.isEmpty = false := by
      rw [Bool.eq_false_iff]
      intro hc
      exact hrne ((String.isEmpty_iff r).mp hc)
    constructor
    · intro hstate
      cases hst : params.state with
      | none => simp [getAuthorizationUrl, hr, hre, hst]
      | some s =>
        have hse : s.isEmpty = true := by
          rw [hst] at hstate
          simpa [strTruthy] using hstate
        simp [getAuthorizationUrl, hr, hre, hst, hse]
    · intro s hst hsne
      have hse : s.isEmpty = false := by
        rw [Bool.eq_false_iff]
        intro hc
        exact hsne ((String.isEmpty_iff s).mp hc)
      simp [getAuthorizationUrl, hr, hre, hst, hse]
  · intro r hr hrne hstate
    have hre : r.isEmpty = false := by
      rw [Bool.eq_false_iff]
      intro hc
      exact hrne ((String.isEmpty_iff r).mp hc)
    cases hst : params.state with
    | none => simp [getAuthorizationUrlDefault, getAuthorizationUrl, hr, hre, hst, hpub]
    | some s =>
      have hse : s.isEmpty = true := by
        rw [hst] at hstate
        simpa [strTruthy] using hstate
      simp [getAuthorizationUrlDefault, getAuthorizationUrl, hr, hre, hst, hse, hpub]

/-- **C9 witness**: with no redirect target the call fails; with one, the
URL carries all seven query parameters (state included, since one is
provided). -/
theorem c9_witness :
    exceptFails (getAuthorizationUrl ⟨"cid", "sec", none, "b", "https://id.kick.com", false⟩
        ⟨"ver", "chal", some "st1"⟩ ["public"]) = true
    ∧ getAuthorizationUrl ⟨"cid", "sec", some "http://cb", "b", "https://id.kick.com", false⟩
        ⟨"ver", "chal", some "st1"⟩ ["user:read", "chat:write"]
      = .ok ⟨"https://id.kick.com" ++ "/oauth/authorize",
          [("response_type", "code"), ("client_id", "cid"), ("redirect_uri", "http://cb"),
           ("scope", String.intercalate " " ["user:read", "chat:write"]),
           ("code_challenge", "chal"), ("code_challenge_method", "S256"),
           ("state", "st1")]⟩ := by
  refine ⟨?_, ?_⟩
  · exact (c9_authorization_url ⟨"cid", "sec", none, "b", "https://id.kick.com", false⟩
      ⟨"ver", "chal", some "st1"⟩ ["public"]).1 rfl
  · exact ((c9_authorization_url ⟨"cid", "sec", some "http://cb", "b", "https://id.kick.com", false⟩
      ⟨"ver", "chal", some "st1"⟩ ["user:read", "chat:write"]).2.1 "http://cb" rfl
      (by decide)).2 "st1" rfl (by decide)

end KickApi
